import Mathlib

/-
Shallow embedding of the four per-pixel analytical image filters found in
src/utils/imageAnalysisViews.ts of the clear_face_detection repository
(edge detection, texture analysis, lighting analysis, color distribution)
together with the view aggregator generateAnalyticalViews.

An ImageData value models the browser ImageData object: a width, a height
and a flat row-major RGBA sample array, where index (y * width + x) * 4 + c
holds channel c of pixel (x, y).  Sample values are modelled as real
numbers, since the JavaScript source computes with IEEE doubles.  A freshly
allocated ImageData is zero filled; every loop iteration of a filter writes
only the four channels of its own pixel and reads only the input, so the
final state of the output array is captured pointwise: an index written by
some iteration carries the value that iteration computes, every other index
keeps the value 0.
-/

namespace ImageAnalysisViews

/-- Model of the browser ImageData object: a rectangular RGBA raster held
as a total function from flat indices to sample values. -/
@[ext]
structure ImageData where
  width : Nat
  height : Nat
  data : Nat → ℝ

/-- Flat index of the first channel (red) of pixel (x, y), as computed by
the expression (y * width + x) * 4 throughout the source. -/
def idx (width x y : Nat) : Nat := (y * width + x) * 4

/-- Red sample of pixel (x, y): data[(y * width + x) * 4]. -/
def red (img : ImageData) (x y : Nat) : ℝ := img.data (idx img.width x y)

/-- Green sample of pixel (x, y): data[(y * width + x) * 4 + 1]. -/
def green (img : ImageData) (x y : Nat) : ℝ := img.data (idx img.width x y + 1)

/-- Blue sample of pixel (x, y): data[(y * width + x) * 4 + 2]. -/
def blue (img : ImageData) (x y : Nat) : ℝ := img.data (idx img.width x y + 2)

/-- Pixel (x, y) is visited by a loop nest of the shape
for y in [r, height - r) and for x in [r, width - r); the edge and lighting
filters use r = 1, the texture filter r = 2, and the color filter r = 0
(its loops run over the whole grid). -/
def interiorPix (width height r x y : Nat) : Prop :=
  r ≤ y ∧ y < height - r ∧ r ≤ x ∧ x < width - r

instance (width height r x y : Nat) : Decidable (interiorPix width height r x y) :=
  inferInstanceAs (Decidable (r ≤ y ∧ y < height - r ∧ r ≤ x ∧ x < width - r))

/-- Sobel horizontal gradient gx of generateEdgeDetection, computed from
the red channel of the 3 by 3 neighborhood of (x, y). -/
def edgeGx (img : ImageData) (x y : Nat) : ℝ :=
  red img (x + 1) (y - 1) - red img (x - 1) (y - 1)
    + 2 * (red img (x + 1) y - red img (x - 1) y)
    + red img (x + 1) (y + 1) - red img (x - 1) (y + 1)

/-- Sobel vertical gradient gy of generateEdgeDetection. -/
def edgeGy (img : ImageData) (x y : Nat) : ℝ :=
  red img (x - 1) (y - 1) + 2 * red img x (y - 1) + red img (x + 1) (y - 1)
    - red img (x - 1) (y + 1) - 2 * red img x (y + 1) - red img (x + 1) (y + 1)

/-- Edge response written by generateEdgeDetection to the three color
channels: Math.min(255, Math.sqrt(gx * gx + gy * gy)). -/
noncomputable def edgeValue (img : ImageData) (x y : Nat) : ℝ :=
  min 255 (Real.sqrt (edgeGx img x y * edgeGx img x y + edgeGy img x y * edgeGy img x y))

/-- Channel vector written by one iteration of the edge loop: the edge
response on channels 0, 1, 2 and the constant 255 on channel 3. -/
noncomputable def edgePixel (img : ImageData) (x y c : Nat) : ℝ :=
  if c = 3 then 255 else edgeValue img x y

/-- The generateEdgeDetection filter: interior pixels (radius 1 loop nest)
receive the Sobel response, every other index keeps the zero initial value
of new ImageData(width, height). -/
noncomputable def generateEdgeDetection (img : ImageData) : ImageData :=
  ⟨img.width, img.height, fun i =>
    if interiorPix img.width img.height 1 ((i / 4) % img.width) ((i / 4) / img.width)
    then edgePixel img ((i / 4) % img.width) ((i / 4) / img.width) (i % 4)
    else 0⟩

/-- Index arithmetic: the channel part of a flat index. -/
lemma idxc_mod_four (width x y c : Nat) (hc : c < 4) : (idx width x y + c) % 4 = c := by
  unfold idx; omega

/-- Index arithmetic: the pixel part of a flat index. -/
lemma idxc_div_four (width x y c : Nat) (hc : c < 4) :
    (idx width x y + c) / 4 = y * width + x := by
  unfold idx; omega

/-- The bare pixel base index is channel 0. -/
lemma idx_mod_four_zero (width x y : Nat) : idx width x y % 4 = 0 := by
  unfold idx; omega

/-- Recovering the x coordinate from a flat pixel number. -/
lemma pix_mod (width x y : Nat) (hx : x < width) : (y * width + x) % width = x := by
  rw [Nat.mul_comm, Nat.mul_add_mod]; exact Nat.mod_eq_of_lt hx

/-- Recovering the y coordinate from a flat pixel number. -/
lemma pix_div (width x y : Nat) (hx : x < width) : (y * width + x) / width = y := by
  have hw : 0 < width := Nat.lt_of_le_of_lt (Nat.zero_le x) hx
  rw [Nat.mul_comm, Nat.mul_add_div hw, Nat.div_eq_of_lt hx, Nat.add_zero]

/-- Gray value used by generateTextureAnalysis:
(data[idx] + data[idx + 1] + data[idx + 2]) / 3. -/
noncomputable def gray (img : ImageData) (x y : Nat) : ℝ :=
  (red img x y + green img x y + blue img x y) / 3

/-- Local mean of generateTextureAnalysis: the gray values of the 5 by 5
window around (x, y) are accumulated and divided by the count 25. -/
noncomputable def localMean (img : ImageData) (x y : Nat) : ℝ :=
  (∑ dy ∈ Finset.range 5, ∑ dx ∈ Finset.range 5,
    gray img (x + dx - 2) (y + dy - 2)) / 25

/-- Local variance of generateTextureAnalysis: squared deviations of the
window gray values from the local mean, divided by the count 25. -/
noncomputable def localVariance (img : ImageData) (x y : Nat) : ℝ :=
  (∑ dy ∈ Finset.range 5, ∑ dx ∈ Finset.range 5,
    (gray img (x + dx - 2) (y + dy - 2) - localMean img x y) ^ 2) / 25

/-- Texture response: Math.min(255, Math.sqrt(variance) * 3). -/
noncomputable def textureValue (img : ImageData) (x y : Nat) : ℝ :=
  min 255 (Real.sqrt (localVariance img x y) * 3)

/-- Channel vector written by one iteration of the texture loop. -/
noncomputable def texturePixel (img : ImageData) (x y c : Nat) : ℝ :=
  if c = 0 then textureValue img x y
  else if c = 1 then textureValue img x y * 0.8
  else if c = 2 then textureValue img x y * 0.6
  else 255

/-- The generateTextureAnalysis filter: pixels whose full 5 by 5 window
lies in bounds (radius 2 loop nest, halfWindow = 2) receive the tinted
texture response, every other index keeps the zero initial value. -/
noncomputable def generateTextureAnalysis (img : ImageData) : ImageData :=
  ⟨img.width, img.height, fun i =>
    if interiorPix img.width img.height 2 ((i / 4) % img.width) ((i / 4) / img.width)
    then texturePixel img ((i / 4) % img.width) ((i / 4) / img.width) (i % 4)
    else 0⟩

/-- Luminance of pixel (x, y) as computed by generateLightingAnalysis:
0.299 * data[idx] + 0.587 * data[idx + 1] + 0.114 * data[idx + 2]. -/
noncomputable def luminance (img : ImageData) (x y : Nat) : ℝ :=
  0.299 * red img x y + 0.587 * green img x y + 0.114 * blue img x y

/-- Horizontal luminance gradient: Math.abs(rightLum - leftLum). -/
noncomputable def horizontalGrad (img : ImageData) (x y : Nat) : ℝ :=
  |luminance img (x + 1) y - luminance img (x - 1) y|

/-- Vertical luminance gradient: Math.abs(bottomLum - topLum). -/
noncomputable def verticalGrad (img : ImageData) (x y : Nat) : ℝ :=
  |luminance img x (y + 1) - luminance img x (y - 1)|

/-- Gradient magnitude of generateLightingAnalysis. -/
noncomputable def gradientMagnitude (img : ImageData) (x y : Nat) : ℝ :=
  Real.sqrt (horizontalGrad img x y * horizontalGrad img x y
    + verticalGrad img x y * verticalGrad img x y)

/-- Enhanced value: Math.min(255, gradientMagnitude * 2). -/
noncomputable def enhancedValue (img : ImageData) (x y : Nat) : ℝ :=
  min 255 (gradientMagnitude img x y * 2)

/-- Channel vector written by one iteration of the lighting loop. -/
noncomputable def lightingPixel (img : ImageData) (x y c : Nat) : ℝ :=
  if c = 0 then luminance img x y * 0.5 + enhancedValue img x y * 0.5
  else if c = 1 then enhancedValue img x y
  else if c = 2 then luminance img x y * 0.3
  else 255

/-- The generateLightingAnalysis filter: interior pixels (radius 1 loop
nest) receive the lighting response, every other index keeps the zero
initial value. -/
noncomputable def generateLightingAnalysis (img : ImageData) : ImageData :=
  ⟨img.width, img.height, fun i =>
    if interiorPix img.width img.height 1 ((i / 4) % img.width) ((i / 4) / img.width)
    then lightingPixel img ((i / 4) % img.width) ((i / 4) / img.width) (i % 4)
    else 0⟩

/-- Saturation of generateColorDistribution:
max === 0 ? 0 : (max - min) / max over the three color channels. -/
noncomputable def saturation (img : ImageData) (x y : Nat) : ℝ :=
  if max (red img x y) (max (green img x y) (blue img x y)) = 0 then 0
  else (max (red img x y) (max (green img x y) (blue img x y))
      - min (red img x y) (min (green img x y) (blue img x y)))
    / max (red img x y) (max (green img x y) (blue img x y))

/-- Color uniformity of generateColorDistribution:
1 - |r - g| / 255 - |g - b| / 255 - |r - b| / 255. -/
noncomputable def colorUniformity (img : ImageData) (x y : Nat) : ℝ :=
  1 - |red img x y - green img x y| / 255 - |green img x y - blue img x y| / 255
    - |red img x y - blue img x y| / 255

/-- Artificialness score: 255 when saturation exceeds 0.8 or color
uniformity exceeds 0.9, otherwise saturation * 255. -/
noncomputable def artificialness (img : ImageData) (x y : Nat) : ℝ :=
  if saturation img x y > 0.8 ∨ colorUniformity img x y > 0.9 then 255
  else saturation img x y * 255

/-- Channel vector written by one iteration of the color loop. -/
noncomputable def colorPixel (img : ImageData) (x y c : Nat) : ℝ :=
  if c = 0 then red img x y * 0.3 + artificialness img x y * 0.7
  else if c = 1 then green img x y * 0.3 + artificialness img x y * 0.5
  else if c = 2 then blue img x y * 0.3 + artificialness img x y * 0.3
  else 255

/-- The generateColorDistribution filter: its loop nest runs over the
whole grid (for y in [0, height), for x in [0, width), radius 0), so every
pixel of the raster receives the color response. -/
noncomputable def generateColorDistribution (img : ImageData) : ImageData :=
  ⟨img.width, img.height, fun i =>
    if interiorPix img.width img.height 0 ((i / 4) % img.width) ((i / 4) / img.width)
    then colorPixel img ((i / 4) % img.width) ((i / 4) / img.width) (i % 4)
    else 0⟩

/-- Pointwise description of the edge output at channel c of pixel (x, y). -/
lemma edge_data_eq (img : ImageData) (x y c : Nat) (hx : x < img.width) (hc : c < 4) :
    (generateEdgeDetection img).data (idx img.width x y + c) =
      if interiorPix img.width img.height 1 x y then edgePixel img x y c else 0 := by
  simp only [generateEdgeDetection]
  rw [idxc_div_four img.width x y c hc, pix_mod img.width x y hx, pix_div img.width x y hx,
    idxc_mod_four img.width x y c hc]

/-- Pointwise description of the texture output at channel c of (x, y). -/
lemma texture_data_eq (img : ImageData) (x y c : Nat) (hx : x < img.width) (hc : c < 4) :
    (generateTextureAnalysis img).data (idx img.width x y + c) =
      if interiorPix img.width img.height 2 x y then texturePixel img x y c else 0 := by
  simp only [generateTextureAnalysis]
  rw [idxc_div_four img.width x y c hc, pix_mod img.width x y hx, pix_div img.width x y hx,
    idxc_mod_four img.width x y c hc]

/-- Pointwise description of the lighting output at channel c of (x, y). -/
lemma lighting_data_eq (img : ImageData) (x y c : Nat) (hx : x < img.width) (hc : c < 4) :
    (generateLightingAnalysis img).data (idx img.width x y + c) =
      if interiorPix img.width img.height 1 x y then lightingPixel img x y c else 0 := by
  simp only [generateLightingAnalysis]
  rw [idxc_div_four img.width x y c hc, pix_mod img.width x y hx, pix_div img.width x y hx,
    idxc_mod_four img.width x y c hc]

/-- Pointwise description of the color output at channel c of (x, y). -/
lemma color_data_eq (img : ImageData) (x y c : Nat) (hx : x < img.width) (hc : c < 4) :
    (generateColorDistribution img).data (idx img.width x y + c) =
      if interiorPix img.width img.height 0 x y then colorPixel img x y c else 0 := by
  simp only [generateColorDistribution]
  rw [idxc_div_four img.width x y c hc, pix_mod img.width x y hx, pix_div img.width x y hx,
    idxc_mod_four img.width x y c hc]

/-- The four encoded views returned by the aggregator, keyed by name as in
the resolved object literal of generateAnalyticalViews. -/
structure AnalyticalViews where
  edgeDetection : ImageData
  textureAnalysis : ImageData
  lightingAnalysis : ImageData
  colorDistribution : ImageData

/-- Possible fates of the promise returned by generateAnalyticalViews. -/
inductive PromiseOutcome (α : Type) : Type where
  | resolved : α → PromiseOutcome α
  | rejected : PromiseOutcome α
  | pending : PromiseOutcome α

/-- The view aggregator generateAnalyticalViews.  Decoding the source file
into a raster is performed by the browser (Image element plus canvas
drawImage and getImageData) and is modelled by the abstract codec
parameter decode, with none standing for a file whose bytes cannot be
rasterized.  The promise executor in the source installs only an onload
handler that resolves with the four views; there is no onerror handler and
reject is never called, so when the image fails to load no handler runs
and the promise is left pending forever. -/
noncomputable def generateAnalyticalViews {F : Type} (decode : F → Option ImageData)
    (file : F) : PromiseOutcome AnalyticalViews :=
  match decode file with
  | some imageData =>
      PromiseOutcome.resolved
        { edgeDetection := generateEdgeDetection imageData
          textureAnalysis := generateTextureAnalysis imageData
          lightingAnalysis := generateLightingAnalysis imageData
          colorDistribution := generateColorDistribution imageData }
  | none => PromiseOutcome.pending

/-- Concrete all-zero raster used to evaluate the filters on small inputs. -/
def zeroImage (w h : Nat) : ImageData := ⟨w, h, fun _ => 0⟩

/-- C8: for every input buffer, each of the four filters returns an
output raster whose width and height are exactly those of the input. -/
theorem c8_output_dimensions (img : ImageData) :
    ((generateEdgeDetection img).width = img.width
      ∧ (generateEdgeDetection img).height = img.height)
    ∧ ((generateTextureAnalysis img).width = img.width
      ∧ (generateTextureAnalysis img).height = img.height)
    ∧ ((generateLightingAnalysis img).width = img.width
      ∧ (generateLightingAnalysis img).height = img.height)
    ∧ ((generateColorDistribution img).width = img.width
      ∧ (generateColorDistribution img).height = img.height) :=
  ⟨⟨rfl, rfl⟩, ⟨rfl, rfl⟩, ⟨rfl, rfl⟩, ⟨rfl, rfl⟩⟩

/-- C9: on a degenerate input whose width or height is below twice the
border radius (radius 1 for edge and lighting, radius 2 for texture), the
filter still returns a raster, of the same dimensions, in which every
sample keeps the zero-initialized boundary default. -/
theorem c9_degenerate_all_default (img : ImageData) :
    (img.width < 2 ∨ img.height < 2 →
      ∀ i, (generateEdgeDetection img).data i = 0) ∧
    (img.width < 4 ∨ img.height < 4 →
      ∀ i, (generateTextureAnalysis img).data i = 0) ∧
    (img.width < 2 ∨ img.height < 2 →
      ∀ i, (generateLightingAnalysis img).data i = 0) := by
  refine ⟨fun hdeg i => ?_, fun hdeg i => ?_, fun hdeg i => ?_⟩
  · simp only [generateEdgeDetection]
    exact if_neg fun hint => by unfold interiorPix at hint; omega
  · simp only [generateTextureAnalysis]
    exact if_neg fun hint => by unfold interiorPix at hint; omega
  · simp only [generateLightingAnalysis]
    exact if_neg fun hint => by unfold interiorPix at hint; omega

/-- C9 witness: a 1 by 1 raster is degenerate for all three bordered
filters and every output sample is 0. -/
theorem c9_degenerate_all_default_witness :
    (generateEdgeDetection (zeroImage 1 1)).data 0 = 0
    ∧ (generateTextureAnalysis (zeroImage 1 1)).data 0 = 0
    ∧ (generateLightingAnalysis (zeroImage 1 1)).data 0 = 0 :=
  ⟨(c9_degenerate_all_default (zeroImage 1 1)).1 (Or.inl (by decide)) 0,
   (c9_degenerate_all_default (zeroImage 1 1)).2.1 (Or.inl (by decide)) 0,
   (c9_degenerate_all_default (zeroImage 1 1)).2.2 (Or.inl (by decide)) 0⟩

/-- C7: the edge, texture and lighting filters leave the outermost border
ring (of width equal to the loop radius: 1, 2 and 1 respectively) at the
zero-initialized default whatever the input holds, while the color filter
writes its computed channel vector at every pixel of the grid. -/
theorem c7_border_policy (img : ImageData) :
    (∀ x y c, x < img.width → y < img.height → c < 4 →
      x < 1 ∨ img.width - 1 ≤ x ∨ y < 1 ∨ img.height - 1 ≤ y →
      (generateEdgeDetection img).data (idx img.width x y + c) = 0) ∧
    (∀ x y c, x < img.width → y < img.height → c < 4 →
      x < 2 ∨ img.width - 2 ≤ x ∨ y < 2 ∨ img.height - 2 ≤ y →
      (generateTextureAnalysis img).data (idx img.width x y + c) = 0) ∧
    (∀ x y c, x < img.width → y < img.height → c < 4 →
      x < 1 ∨ img.width - 1 ≤ x ∨ y < 1 ∨ img.height - 1 ≤ y →
      (generateLightingAnalysis img).data (idx img.width x y + c) = 0) ∧
    (∀ x y c, x < img.width → y < img.height → c < 4 →
      (generateColorDistribution img).data (idx img.width x y + c) = colorPixel img x y c) := by
  refine ⟨fun x y c hx hy hc hb => ?_, fun x y c hx hy hc hb => ?_,
    fun x y c hx hy hc hb => ?_, fun x y c hx hy hc => ?_⟩
  · rw [edge_data_eq img x y c hx hc]
    exact if_neg fun hint => by unfold interiorPix at hint; omega
  · rw [texture_data_eq img x y c hx hc]
    exact if_neg fun hint => by unfold interiorPix at hint; omega
  · rw [lighting_data_eq img x y c hx hc]
    exact if_neg fun hint => by unfold interiorPix at hint; omega
  · rw [color_data_eq img x y c hx hc]
    exact if_pos (by unfold interiorPix; omega)

/-- C7 witness: on a 4 by 4 raster, corner and ring samples of the three
bordered filters are 0 while the color filter writes its channel vector at
the corner. -/
theorem c7_border_policy_witness :
    (generateEdgeDetection (zeroImage 4 4)).data (idx (zeroImage 4 4).width 0 0 + 0) = 0
    ∧ (generateTextureAnalysis (zeroImage 4 4)).data (idx (zeroImage 4 4).width 1 1 + 0) = 0
    ∧ (generateLightingAnalysis (zeroImage 4 4)).data (idx (zeroImage 4 4).width 3 3 + 0) = 0
    ∧ (generateColorDistribution (zeroImage 4 4)).data (idx (zeroImage 4 4).width 0 0 + 3)
        = colorPixel (zeroImage 4 4) 0 0 3 :=
  ⟨(c7_border_policy (zeroImage 4 4)).1 0 0 0 (by decide) (by decide) (by decide)
      (Or.inl (by decide)),
   (c7_border_policy (zeroImage 4 4)).2.1 1 1 0 (by decide) (by decide) (by decide)
      (Or.inl (by decide)),
   (c7_border_policy (zeroImage 4 4)).2.2.1 3 3 0 (by decide) (by decide) (by decide)
      (Or.inr (Or.inl (by decide))),
   (c7_border_policy (zeroImage 4 4)).2.2.2 0 0 3 (by decide) (by decide) (by decide)⟩

/-- C1 counterexample: the alpha sample of border pixel (0, 0) of the edge
output of a 3 by 3 raster keeps the zero initial value, so it is not 255;
the claim fails for border pixels. -/
theorem c1_alpha_counterexample :
    ¬ (generateEdgeDetection (zeroImage 3 3)).data
        (idx (zeroImage 3 3).width 0 0 + 3) = 255 := by
  rw [edge_data_eq (zeroImage 3 3) 0 0 3 (by decide) (by decide)]
  rw [if_neg fun hint => by unfold interiorPix at hint; omega]
  norm_num

/-- C1 (amended): every sample the filter kernels actually write has its
alpha channel equal to 255: interior pixels for edge and lighting, pixels
with a full 5 by 5 window for texture, and every pixel for color; the
remaining border-ring samples of the first three filters keep alpha 0 from
zero initialization. -/
theorem c1_alpha_opaque_at_written_pixels (img : ImageData) :
    (∀ x y, interiorPix img.width img.height 1 x y →
      (generateEdgeDetection img).data (idx img.width x y + 3) = 255) ∧
    (∀ x y, interiorPix img.width img.height 2 x y →
      (generateTextureAnalysis img).data (idx img.width x y + 3) = 255) ∧
    (∀ x y, interiorPix img.width img.height 1 x y →
      (generateLightingAnalysis img).data (idx img.width x y + 3) = 255) ∧
    (∀ x y, x < img.width → y < img.height →
      (generateColorDistribution img).data (idx img.width x y + 3) = 255) := by
  refine ⟨fun x y hint => ?_, fun x y hint => ?_, fun x y hint => ?_, fun x y hx hy => ?_⟩
  · have hx : x < img.width := by unfold interiorPix at hint; omega
    rw [edge_data_eq img x y 3 hx (by norm_num), if_pos hint]
    unfold edgePixel
    norm_num
  · have hx : x < img.width := by unfold interiorPix at hint; omega
    rw [texture_data_eq img x y 3 hx (by norm_num), if_pos hint]
    unfold texturePixel
    norm_num
  · have hx : x < img.width := by unfold interiorPix at hint; omega
    rw [lighting_data_eq img x y 3 hx (by norm_num), if_pos hint]
    unfold lightingPixel
    norm_num
  · rw [color_data_eq img x y 3 hx (by norm_num), if_pos (by unfold interiorPix; omega)]
    unfold colorPixel
    norm_num

/-- C1 witness: on a 5 by 5 raster, written samples of all four filters
carry alpha 255. -/
theorem c1_alpha_opaque_witness :
    (generateEdgeDetection (zeroImage 5 5)).data (idx (zeroImage 5 5).width 1 1 + 3) = 255
    ∧ (generateTextureAnalysis (zeroImage 5 5)).data (idx (zeroImage 5 5).width 2 2 + 3) = 255
    ∧ (generateLightingAnalysis (zeroImage 5 5)).data (idx (zeroImage 5 5).width 1 1 + 3) = 255
    ∧ (generateColorDistribution (zeroImage 5 5)).data (idx (zeroImage 5 5).width 0 0 + 3) = 255 :=
  ⟨(c1_alpha_opaque_at_written_pixels (zeroImage 5 5)).1 1 1 (by decide),
   (c1_alpha_opaque_at_written_pixels (zeroImage 5 5)).2.1 2 2 (by decide),
   (c1_alpha_opaque_at_written_pixels (zeroImage 5 5)).2.2.1 1 1 (by decide),
   (c1_alpha_opaque_at_written_pixels (zeroImage 5 5)).2.2.2 0 0 (by decide) (by decide)⟩

/-- C3: at every interior pixel the edge output holds the Sobel magnitude
min(255, sqrt(gx^2 + gy^2)) on the three color channels and 255 on alpha,
with gx and gy computed from the red channel of the 3 by 3 neighborhood as
spelled out below. -/
theorem c3_edge_interior_formula (img : ImageData) (x y : Nat)
    (hx1 : 1 ≤ x) (hx2 : x < img.width - 1) (hy1 : 1 ≤ y) (hy2 : y < img.height - 1) :
    edgeGx img x y
      = (red img (x + 1) (y - 1) - red img (x - 1) (y - 1))
        + 2 * (red img (x + 1) y - red img (x - 1) y)
        + (red img (x + 1) (y + 1) - red img (x - 1) (y + 1)) ∧
    edgeGy img x y
      = (red img (x - 1) (y - 1) + 2 * red img x (y - 1) + red img (x + 1) (y - 1))
        - (red img (x - 1) (y + 1) + 2 * red img x (y + 1) + red img (x + 1) (y + 1)) ∧
    (∀ c, c < 3 → (generateEdgeDetection img).data (idx img.width x y + c)
      = min 255 (Real.sqrt (edgeGx img x y ^ 2 + edgeGy img x y ^ 2))) ∧
    (generateEdgeDetection img).data (idx img.width x y + 3) = 255 := by
  have hx : x < img.width := by omega
  have hint : interiorPix img.width img.height 1 x y := ⟨hy1, hy2, hx1, hx2⟩
  refine ⟨by unfold edgeGx; ring, by unfold edgeGy; ring, fun c hc => ?_, ?_⟩
  · rw [edge_data_eq img x y c hx (by omega), if_pos hint]
    unfold edgePixel
    rw [if_neg (by omega)]
    unfold edgeValue
    rw [pow_two, pow_two]
  · rw [edge_data_eq img x y 3 hx (by norm_num), if_pos hint]
    unfold edgePixel
    norm_num

/-- C3 witness: evaluation at the center pixel of a 3 by 3 raster. -/
theorem c3_edge_interior_formula_witness :
    (generateEdgeDetection (zeroImage 3 3)).data (idx (zeroImage 3 3).width 1 1 + 0)
      = min 255 (Real.sqrt (edgeGx (zeroImage 3 3) 1 1 ^ 2 + edgeGy (zeroImage 3 3) 1 1 ^ 2))
    ∧ (generateEdgeDetection (zeroImage 3 3)).data (idx (zeroImage 3 3).width 1 1 + 3) = 255 :=
  ⟨(c3_edge_interior_formula (zeroImage 3 3) 1 1 (by decide) (by decide)
      (by decide) (by decide)).2.2.1 0 (by decide),
   (c3_edge_interior_formula (zeroImage 3 3) 1 1 (by decide) (by decide)
      (by decide) (by decide)).2.2.2⟩

/-- C4: at every pixel whose full 5 by 5 window lies in bounds the texture
output is (t, t * 0.8, t * 0.6, 255) with t = min(255, sqrt(variance) * 3),
where the variance averages the squared deviation of the window gray
values from the window mean over the 25 samples. -/
theorem c4_texture_window_formula (img : ImageData) (x y : Nat)
    (hx1 : 2 ≤ x) (hx2 : x < img.width - 2) (hy1 : 2 ≤ y) (hy2 : y < img.height - 2) :
    (generateTextureAnalysis img).data (idx img.width x y)
      = min 255 (Real.sqrt (localVariance img x y) * 3) ∧
    (generateTextureAnalysis img).data (idx img.width x y + 1)
      = min 255 (Real.sqrt (localVariance img x y) * 3) * 0.8 ∧
    (generateTextureAnalysis img).data (idx img.width x y + 2)
      = min 255 (Real.sqrt (localVariance img x y) * 3) * 0.6 ∧
    (generateTextureAnalysis img).data (idx img.width x y + 3) = 255 ∧
    localVariance img x y
      = (∑ dy ∈ Finset.range 5, ∑ dx ∈ Finset.range 5,
          (gray img (x + dx - 2) (y + dy - 2) - localMean img x y) ^ 2) / 25 ∧
    localMean img x y
      = (∑ dy ∈ Finset.range 5, ∑ dx ∈ Finset.range 5,
          gray img (x + dx - 2) (y + dy - 2)) / 25 ∧
    (∀ a b, gray img a b = (red img a b + green img a b + blue img a b) / 3) := by
  have hx : x < img.width := by omega
  have hint : interiorPix img.width img.height 2 x y := ⟨hy1, hy2, hx1, hx2⟩
  have h0 := texture_data_eq img x y 0 hx (by norm_num)
  rw [Nat.add_zero] at h0
  refine ⟨?_, ?_, ?_, ?_, rfl, rfl, fun a b => rfl⟩
  · rw [h0, if_pos hint]
    unfold texturePixel textureValue
    norm_num
  · rw [texture_data_eq img x y 1 hx (by norm_num), if_pos hint]
    unfold texturePixel textureValue
    norm_num
  · rw [texture_data_eq img x y 2 hx (by norm_num), if_pos hint]
    unfold texturePixel textureValue
    norm_num
  · rw [texture_data_eq img x y 3 hx (by norm_num), if_pos hint]
    unfold texturePixel
    norm_num

/-- C4 witness: evaluation at the center pixel of a 5 by 5 raster. -/
theorem c4_texture_window_formula_witness :
    (generateTextureAnalysis (zeroImage 5 5)).data (idx (zeroImage 5 5).width 2 2)
      = min 255 (Real.sqrt (localVariance (zeroImage 5 5) 2 2) * 3)
    ∧ (generateTextureAnalysis (zeroImage 5 5)).data (idx (zeroImage 5 5).width 2 2 + 3) = 255 :=
  ⟨(c4_texture_window_formula (zeroImage 5 5) 2 2 (by decide) (by decide)
      (by decide) (by decide)).1,
   (c4_texture_window_formula (zeroImage 5 5) 2 2 (by decide) (by decide)
      (by decide) (by decide)).2.2.2.1⟩

/-- C5: at every interior pixel the lighting output is
(0.5 * luminance + 0.5 * enhanced, enhanced, 0.3 * luminance, 255) with
enhanced = min(255, 2 * sqrt(h^2 + v^2)), h and v the absolute horizontal
and vertical luminance differences of the four neighbors, and luminance
the 0.299 / 0.587 / 0.114 weighted channel sum. -/
theorem c5_lighting_interior_formula (img : ImageData) (x y : Nat)
    (hx1 : 1 ≤ x) (hx2 : x < img.width - 1) (hy1 : 1 ≤ y) (hy2 : y < img.height - 1) :
    (generateLightingAnalysis img).data (idx img.width x y)
      = 0.5 * luminance img x y + 0.5 * enhancedValue img x y ∧
    (generateLightingAnalysis img).data (idx img.width x y + 1) = enhancedValue img x y ∧
    (generateLightingAnalysis img).data (idx img.width x y + 2)
      = 0.3 * luminance img x y ∧
    (generateLightingAnalysis img).data (idx img.width x y + 3) = 255 ∧
    enhancedValue img x y
      = min 255 (2 * Real.sqrt (horizontalGrad img x y ^ 2 + verticalGrad img x y ^ 2)) ∧
    horizontalGrad img x y = |luminance img (x + 1) y - luminance img (x - 1) y| ∧
    verticalGrad img x y = |luminance img x (y + 1) - luminance img x (y - 1)| ∧
    luminance img x y
      = 0.299 * red img x y + 0.587 * green img x y + 0.114 * blue img x y := by
  have hx : x < img.width := by omega
  have hint : interiorPix img.width img.height 1 x y := ⟨hy1, hy2, hx1, hx2⟩
  have h0 := lighting_data_eq img x y 0 hx (by norm_num)
  rw [Nat.add_zero] at h0
  refine ⟨?_, ?_, ?_, ?_, ?_, rfl, rfl, rfl⟩
  · rw [h0, if_pos hint]
    unfold lightingPixel
    norm_num
    ring
  · rw [lighting_data_eq img x y 1 hx (by norm_num), if_pos hint]
    unfold lightingPixel
    norm_num
  · rw [lighting_data_eq img x y 2 hx (by norm_num), if_pos hint]
    unfold lightingPixel
    norm_num
    ring
  · rw [lighting_data_eq img x y 3 hx (by norm_num), if_pos hint]
    unfold lightingPixel
    norm_num
  · unfold enhancedValue gradientMagnitude
    rw [pow_two, pow_two,
      mul_comm (Real.sqrt (horizontalGrad img x y * horizontalGrad img x y
        + verticalGrad img x y * verticalGrad img x y)) 2]

/-- C5 witness: evaluation at the center pixel of a 3 by 3 raster. -/
theorem c5_lighting_interior_formula_witness :
    (generateLightingAnalysis (zeroImage 3 3)).data (idx (zeroImage 3 3).width 1 1 + 1)
      = enhancedValue (zeroImage 3 3) 1 1
    ∧ (generateLightingAnalysis (zeroImage 3 3)).data (idx (zeroImage 3 3).width 1 1 + 3) = 255 :=
  ⟨(c5_lighting_interior_formula (zeroImage 3 3) 1 1 (by decide) (by decide)
      (by decide) (by decide)).2.1,
   (c5_lighting_interior_formula (zeroImage 3 3) 1 1 (by decide) (by decide)
      (by decide) (by decide)).2.2.2.1⟩

/-- C6: at every pure gray pixel (equal red, green and blue samples) the
color filter computes colorUniformity 1, which exceeds the 0.9 threshold,
hence artificialness 255, whatever the saturation is. -/
theorem c6_gray_pixel_artificialness (img : ImageData) (x y : Nat)
    (hg : green img x y = red img x y) (hb : blue img x y = red img x y) :
    colorUniformity img x y = 1 ∧ colorUniformity img x y > 0.9
    ∧ artificialness img x y = 255 := by
  have hu : colorUniformity img x y = 1 := by
    unfold colorUniformity
    rw [hg, hb]
    simp
  refine ⟨hu, by rw [hu]; norm_num, ?_⟩
  unfold artificialness
  rw [if_pos (Or.inr (by rw [hu]; norm_num))]

/-- C6 witness: the all-zero pixel of a 1 by 1 raster is pure gray and
gets artificialness 255. -/
theorem c6_gray_pixel_artificialness_witness :
    colorUniformity (zeroImage 1 1) 0 0 = 1
    ∧ artificialness (zeroImage 1 1) 0 0 = 255 :=
  ⟨(c6_gray_pixel_artificialness (zeroImage 1 1) 0 0 rfl rfl).1,
   (c6_gray_pixel_artificialness (zeroImage 1 1) 0 0 rfl rfl).2.2⟩

/-- C2: when the source cannot be decoded into a raster, the promise
built by generateAnalyticalViews is left pending forever, because its
executor installs only an onload handler; in particular no partial result
is resolved, but no error is propagated either, contradicting the claim
that a decode failure surfaces an error to the caller. -/
theorem c2_decode_failure_leaves_promise_pending {F : Type}
    (decode : F → Option ImageData) (file : F) (h : decode file = none) :
    generateAnalyticalViews decode file = PromiseOutcome.pending
    ∧ generateAnalyticalViews decode file ≠ PromiseOutcome.rejected := by
  unfold generateAnalyticalViews
  rw [h]
  exact ⟨rfl, fun hcon => PromiseOutcome.noConfusion hcon⟩

/-- C2 witness: a codec that rejects every file leaves the aggregator
promise pending. -/
theorem c2_decode_failure_witness :
    generateAnalyticalViews (fun _ : Unit => (none : Option ImageData)) ()
      = PromiseOutcome.pending
    ∧ generateAnalyticalViews (fun _ : Unit => (none : Option ImageData)) ()
      ≠ PromiseOutcome.rejected :=
  c2_decode_failure_leaves_promise_pending (fun _ => none) () rfl

/-- C10: two inputs of equal dimensions that agree on every sample outside
the alpha channel produce identical outputs under all four filters, and
for the edge filter agreement on the red channel alone already suffices:
no filter reads the input alpha channel. -/
theorem c10_filters_ignore_alpha :
    (∀ img1 img2 : ImageData, img1.width = img2.width → img1.height = img2.height →
      (∀ i, i % 4 ≠ 3 → img1.data i = img2.data i) →
      generateEdgeDetection img1 = generateEdgeDetection img2
      ∧ generateTextureAnalysis img1 = generateTextureAnalysis img2
      ∧ generateLightingAnalysis img1 = generateLightingAnalysis img2
      ∧ generateColorDistribution img1 = generateColorDistribution img2) ∧
    (∀ img1 img2 : ImageData, img1.width = img2.width → img1.height = img2.height →
      (∀ i, i % 4 = 0 → img1.data i = img2.data i) →
      generateEdgeDetection img1 = generateEdgeDetection img2) := by
  have hedge : ∀ img1 img2 : ImageData, img1.width = img2.width →
      img1.height = img2.height → (∀ i, i % 4 = 0 → img1.data i = img2.data i) →
      generateEdgeDetection img1 = generateEdgeDetection img2 := by
    intro img1 img2 hw hh h
    have hrd : ∀ a b : Nat, red img1 a b = red img2 a b := fun a b => by
      unfold red
      rw [hw]
      exact h _ (idx_mod_four_zero img2.width a b)
    have hv : ∀ a b : Nat, edgeValue img1 a b = edgeValue img2 a b := fun a b => by
      unfold edgeValue edgeGx edgeGy
      simp only [hrd]
    have hp : ∀ a b c : Nat, edgePixel img1 a b c = edgePixel img2 a b c := fun a b c => by
      unfold edgePixel
      simp only [hv]
    unfold generateEdgeDetection
    simp only [hw, hh, hp]
  refine ⟨fun img1 img2 hw hh h => ?_, hedge⟩
  have hrd : ∀ a b : Nat, red img1 a b = red img2 a b := fun a b => by
    unfold red
    rw [hw]
    exact h _ (by rw [idx_mod_four_zero]; norm_num)
  have hgr : ∀ a b : Nat, green img1 a b = green img2 a b := fun a b => by
    unfold green
    rw [hw]
    exact h _ (by rw [idxc_mod_four img2.width a b 1 (by norm_num)]; norm_num)
  have hbl : ∀ a b : Nat, blue img1 a b = blue img2 a b := fun a b => by
    unfold blue
    rw [hw]
    exact h _ (by rw [idxc_mod_four img2.width a b 2 (by norm_num)]; norm_num)
  refine ⟨hedge img1 img2 hw hh (fun i hi => h i (by omega)), ?_, ?_, ?_⟩
  · have hgy : ∀ a b : Nat, gray img1 a b = gray img2 a b := fun a b => by
      unfold gray
      rw [hrd, hgr, hbl]
    have hm : ∀ a b : Nat, localMean img1 a b = localMean img2 a b := fun a b => by
      unfold localMean
      simp only [hgy]
    have hva : ∀ a b : Nat, localVariance img1 a b = localVariance img2 a b := fun a b => by
      unfold localVariance
      simp only [hgy, hm]
    have ht : ∀ a b : Nat, textureValue img1 a b = textureValue img2 a b := fun a b => by
      unfold textureValue
      rw [hva]
    have hp : ∀ a b c : Nat, texturePixel img1 a b c = texturePixel img2 a b c :=
      fun a b c => by
        unfold texturePixel
        simp only [ht]
    unfold generateTextureAnalysis
    simp only [hw, hh, hp]
  · have hlum : ∀ a b : Nat, luminance img1 a b = luminance img2 a b := fun a b => by
      unfold luminance
      rw [hrd, hgr, hbl]
    have hhg : ∀ a b : Nat, horizontalGrad img1 a b = horizontalGrad img2 a b :=
      fun a b => by
        unfold horizontalGrad
        rw [hlum, hlum]
    have hvg : ∀ a b : Nat, verticalGrad img1 a b = verticalGrad img2 a b := fun a b => by
      unfold verticalGrad
      rw [hlum, hlum]
    have hgm : ∀ a b : Nat, gradientMagnitude img1 a b = gradientMagnitude img2 a b :=
      fun a b => by
        unfold gradientMagnitude
        rw [hhg, hvg]
    have hev : ∀ a b : Nat, enhancedValue img1 a b = enhancedValue img2 a b := fun a b => by
      unfold enhancedValue
      rw [hgm]
    have hp : ∀ a b c : Nat, lightingPixel img1 a b c = lightingPixel img2 a b c :=
      fun a b c => by
        unfold lightingPixel
        simp only [hlum, hev]
    unfold generateLightingAnalysis
    simp only [hw, hh, hp]
  · have hsat : ∀ a b : Nat, saturation img1 a b = saturation img2 a b := fun a b => by
      unfold saturation
      simp only [hrd, hgr, hbl]
    have huni : ∀ a b : Nat, colorUniformity img1 a b = colorUniformity img2 a b :=
      fun a b => by
        unfold colorUniformity
        rw [hrd, hgr, hbl]
    have hart : ∀ a b : Nat, artificialness img1 a b = artificialness img2 a b :=
      fun a b => by
        unfold artificialness
        simp only [hsat, huni]
    have hp : ∀ a b c : Nat, colorPixel img1 a b c = colorPixel img2 a b c :=
      fun a b c => by
        unfold colorPixel
        simp only [hrd, hgr, hbl, hart]
    unfold generateColorDistribution
    simp only [hw, hh, hp]

/-- Concrete raster that differs from the all-zero 1 by 1 raster exactly
in the alpha sample of its single pixel. -/
noncomputable def alphaTweak : ImageData := ⟨1, 1, fun i => if i = 3 then 7 else 0⟩

/-- C10 witness: tweaking the alpha sample of a 1 by 1 raster leaves all
four outputs unchanged. -/
theorem c10_filters_ignore_alpha_witness :
    generateEdgeDetection (zeroImage 1 1) = generateEdgeDetection alphaTweak
    ∧ generateTextureAnalysis (zeroImage 1 1) = generateTextureAnalysis alphaTweak
    ∧ generateLightingAnalysis (zeroImage 1 1) = generateLightingAnalysis alphaTweak
    ∧ generateColorDistribution (zeroImage 1 1) = generateColorDistribution alphaTweak :=
  c10_filters_ignore_alpha.1 (zeroImage 1 1) alphaTweak rfl rfl (fun i hi => by
    simp only [zeroImage, alphaTweak]
    rw [if_neg fun h3 => hi (by rw [h3])])

end ImageAnalysisViews
